import Mathlib

/-!
Shallow embedding of the Ubiquiti mPower switch component
(homeassistant/components/switch/ubiquiti_mpower.py).

The state table is a map from outlet key (digit string) to a map from
metric name to the raw string value, mirroring the Python dict of dicts.
The remote-shell transport is external: each operation takes the outcome
of the connection attempt and, for a status refresh, the raw response
text as explicit inputs.  Sent commands are returned so that command
traffic can be reasoned about.
-/

namespace UbiquitiMpower

/-- StateTable: outlet key to metric-name-to-raw-value map (dict of dicts). -/
abbrev StateTable := String → Option (String → Option String)

/-- Empty state table, as set up by the controller constructor. -/
def emptyStates : StateTable := fun _ => none

/-- Read one metric of one outlet; none when the outlet key or the metric
name is absent (a Python KeyError on either level). -/
def getMetric (st : StateTable) (k n : String) : Option String :=
  match st k with
  | some m => m n
  | none => none

/-- Upsert one metric: creates the per-outlet map when the key is new
(the two-step `if key not in states: states[key] = ... ; states[key][name] = value`
of MpowerDevice.update). -/
def setMetric (st : StateTable) (k n v : String) : StateTable :=
  fun k' =>
    if k' = k then
      some (fun n' =>
        if n' = n then some v
        else
          match st k with
          | some m => m n'
          | none => none)
    else st k'

/-- Character class of the first regex group [a-z_]+ . -/
def isNameChar (c : Char) : Bool := c.isLower || c = '_'

/-- Value part of the regex, matching the source alternation of digits or
digits dot digits, anchored at the end of the line. -/
def isValueChars (cs : List Char) : Bool :=
  match cs.span Char.isDigit with
  | ([], _) => false
  | (_ :: _, []) => true
  | (_ :: _, '.' :: frac) => !frac.isEmpty && frac.all Char.isDigit
  | (_ :: _, _ :: _) => false

/-- Regex match of one cleaned line against the source pattern
anchored ^([a-z_]+)(\d+):(\d+|\d+\.\d+)$ returning (metric name, outlet
key, value) on success.  The three character classes are disjoint, so
greedy spans coincide with the regex backtracking semantics. -/
def parseLine (s : String) : Option (String × String × String) :=
  match s.toList.span isNameChar with
  | ([], _) => none
  | (c :: name, rest1) =>
    match rest1.span Char.isDigit with
    | ([], _) => none
    | (d :: key, rest2) =>
      match rest2 with
      | ':' :: val =>
        if isValueChars val then
          some (String.mk (c :: name), String.mk (d :: key), String.mk val)
        else none
      | _ => none

/-- Remove every carriage return, as replace of the source does. -/
def cleanLine (s : String) : String :=
  String.mk (s.toList.filter (fun c => c ≠ '\r'))

/-- Process one raw line of the status dump: decode, strip carriage
returns, regex-match, and upsert on a match; no-op otherwise. -/
def applyLine (st : StateTable) (line : String) : StateTable :=
  match parseLine (cleanLine line) with
  | some (n, k, v) => setMetric st k n v
  | none => st

/-- Process a list of raw status lines in order. -/
def applyLines (st : StateTable) (lines : List String) : StateTable :=
  lines.foldl applyLine st

/-- Split on every newline character, as the bytes split of the source
does (an empty input yields one empty field, a trailing newline yields a
trailing empty field). -/
def splitOnNewline (cs : List Char) : List (List Char) :=
  match cs with
  | [] => [[]]
  | c :: rest =>
    let r := splitOnNewline rest
    if c = '\n' then [] :: r
    else
      match r with
      | [] => [[c]]
      | g :: gs => (c :: g) :: gs

/-- Newline split at the string level. -/
def splitLines (s : String) : List String :=
  (splitOnNewline s.toList).map String.mk

/-- Lines the update loop iterates over: the newline split of the raw
response with the first and last element dropped (the [1:-1] slice). -/
def powerLines (response : String) : List String :=
  ((splitLines response).drop 1).dropLast

/-- Commands sent over the session. -/
inductive Command where
  | relay (state : Nat) (key : String)
  | powerStatus
deriving DecidableEq

/-- Session handle; the liveness flag is what isalive reports. -/
structure Session where
  alive : Bool
deriving DecidableEq

/-- Outcome of one login attempt on a fresh pxssh handle. -/
inductive ConnectResult where
  | ok
  | eof
  | pxsshError
deriving DecidableEq

/-- Result of the login call inside MpowerDevice connect: a live session
on success, and the handle is dropped on either exception. -/
def tryLogin : ConnectResult → Option Session
  | ConnectResult.ok => some { alive := true }
  | ConnectResult.eof => none
  | ConnectResult.pxsshError => none

/-- MpowerDevice connect: reuse a live session, otherwise attempt a fresh
login; on failure the stored handle is cleared. -/
def connect (ssh : Option Session) (attempt : ConnectResult) : Option Session :=
  match ssh with
  | some s => if s.alive then some s else tryLogin attempt
  | none => tryLogin attempt

/-- Controller state (MpowerDevice fields). -/
structure MpowerDevice where
  name : String
  host : String
  username : String
  password : String
  timeout : Nat
  states : StateTable
  ssh : Option Session
  lastUpdate : Option Nat

/-- MpowerDevice constructor. -/
def mkDevice (name host username password : String) (timeout : Nat) : MpowerDevice :=
  { name := name, host := host, username := username, password := password,
    timeout := timeout, states := emptyStates, ssh := none, lastUpdate := none }

/-- MpowerDevice switch-state helper: ensure a session, then either send
the relay command and report success, or report failure. -/
def switchState (dev : MpowerDevice) (attempt : ConnectResult) (state : Nat)
    (key : String) : MpowerDevice × List Command × Bool :=
  let ssh := connect dev.ssh attempt
  let dev1 := { dev with ssh := ssh }
  match ssh with
  | some _ => (dev1, [Command.relay state key], true)
  | none => (dev1, [], false)

/-- MpowerDevice turn-on: switch the relay, then on success write the
literal "1" into the per-outlet map; a missing outlet key at that point
is a KeyError propagated to the caller (modelled as the error result). -/
def turn_on (dev : MpowerDevice) (attempt : ConnectResult) (key : String) :
    MpowerDevice × List Command × Except Unit Bool :=
  match switchState dev attempt 1 key with
  | (dev1, cmds, true) =>
    match dev1.states key with
    | some _ =>
      ({ dev1 with states := setMetric dev1.states key "relay" "1" }, cmds, Except.ok true)
    | none => (dev1, cmds, Except.error ())
  | (dev1, cmds, false) => (dev1, cmds, Except.ok false)

/-- MpowerDevice turn-off, symmetric to turn-on with literal "0". -/
def turn_off (dev : MpowerDevice) (attempt : ConnectResult) (key : String) :
    MpowerDevice × List Command × Except Unit Bool :=
  match switchState dev attempt 0 key with
  | (dev1, cmds, true) =>
    match dev1.states key with
    | some _ =>
      ({ dev1 with states := setMetric dev1.states key "relay" "0" }, cmds, Except.ok true)
    | none => (dev1, cmds, Except.error ())
  | (dev1, cmds, false) => (dev1, cmds, Except.ok false)

/-- Minimum number of seconds between two effective updates. -/
def MIN_TIME_BETWEEN_UPDATES : Nat := 5

/-- Modelled from the spec: the Throttle decorator of the host framework
(not part of the sources here) rate-limits update to at most once per
minimum interval; a call arriving sooner than the interval after the last
executed call is a no-op. -/
def throttleBlocks (lastUpdate : Option Nat) (now : Nat) : Bool :=
  match lastUpdate with
  | some t => now - t < MIN_TIME_BETWEEN_UPDATES
  | none => false

/-- MpowerDevice update under the throttle: when not blocked, ensure a
session; with a session, send the status command and fold the sliced
response lines into the state table; without one, log and leave the
table untouched. -/
def update (dev : MpowerDevice) (now : Nat) (attempt : ConnectResult)
    (response : String) : MpowerDevice × List Command :=
  if throttleBlocks dev.lastUpdate now then (dev, [])
  else
    match connect dev.ssh attempt with
    | some s =>
      ({ dev with
          lastUpdate := some now
          ssh := some s
          states := applyLines dev.states (powerLines response) },
       [Command.powerStatus])
    | none => ({ dev with lastUpdate := some now, ssh := none }, [])

/-- MpowerOutlet display name, fixed at construction: controller name and
label when the label is truthy, controller name and outlet key otherwise. -/
def outletName (controllerName deviceNumber : String) (label : Option String) : String :=
  match label with
  | some l => if l = "" then controllerName ++ "_" ++ deviceNumber else controllerName ++ "_" ++ l
  | none => controllerName ++ "_" ++ deviceNumber

/-- MpowerOutlet is-on: the relay metric compared with "1"; a missing
outlet key or relay metric is a KeyError (error result). -/
def is_on (dev : MpowerDevice) (deviceNumber : String) : Except Unit Bool :=
  match getMetric dev.states deviceNumber "relay" with
  | some v => Except.ok (v == "1")
  | none => Except.error ()

/-- Value of a digit list, most significant first. -/
def digitsVal (cs : List Char) : Nat :=
  cs.foldl (fun acc c => 10 * acc + (c.toNat - 48)) 0

/-- Exact-rational reading of a decimal string of the shape digits or
digits dot digits; this models the Python float conversion on the value
strings the status parser stores (which always have that shape), with
real-number rather than binary floating-point arithmetic. -/
def parseDecimal (s : String) : Option ℚ :=
  match s.toList.span Char.isDigit with
  | ([], _) => none
  | (d :: int, []) => some ((digitsVal (d :: int) : ℚ))
  | (d :: int, '.' :: frac) =>
    if !frac.isEmpty && frac.all Char.isDigit then
      some ((digitsVal (d :: int) : ℚ) + (digitsVal frac : ℚ) / ((10 : ℚ) ^ frac.length))
    else none
  | (_ :: _, _ :: _) => none

/-- Read one metric and convert it as Python float would; a missing key
or metric, or unconvertible text, is an error propagated to the caller. -/
def floatMetric (dev : MpowerDevice) (deviceNumber metric : String) : Except Unit ℚ :=
  match getMetric dev.states deviceNumber metric with
  | some s =>
    match parseDecimal s with
    | some q => Except.ok q
    | none => Except.error ()
  | none => Except.error ()

/-- MpowerOutlet current-power property: the raw active-power string
converted to a number and divided by 1000. -/
def current_power_mwh (dev : MpowerDevice) (deviceNumber : String) : Except Unit ℚ :=
  match floatMetric dev deviceNumber "active_pwr" with
  | Except.ok q => Except.ok (q / 1000)
  | Except.error e => Except.error e

/-- Attribute record returned by the state-attributes property. -/
structure DeviceStateAttributes where
  power_factor : ℚ
  energy_sum : ℚ
  voltage : ℚ
  power : ℚ
  current : ℚ
deriving DecidableEq

/-- MpowerOutlet state-attributes property: all five metrics converted;
any missing metric makes the whole property raise (error result). -/
def device_state_attributes (dev : MpowerDevice) (deviceNumber : String) :
    Except Unit DeviceStateAttributes :=
  match floatMetric dev deviceNumber "pf", floatMetric dev deviceNumber "energy_sum",
      floatMetric dev deviceNumber "v_rms", floatMetric dev deviceNumber "active_pwr",
      floatMetric dev deviceNumber "i_rms" with
  | Except.ok pf, Except.ok es, Except.ok vr, Except.ok ap, Except.ok ir =>
    Except.ok { power_factor := pf, energy_sum := es, voltage := vr, power := ap, current := ir }
  | _, _, _, _, _ => Except.error ()

/-- Value the line would write into cell (k, n): the matched value when
the line regex-matches with outlet key k and metric name n. -/
def writeOf (line k n : String) : Option String :=
  match parseLine (cleanLine line) with
  | some (n', k', v) => if k' = k ∧ n' = n then some v else none
  | none => none

/-- Value of the last line writing cell (k, n), if any. -/
def lastWriteVal (lines : List String) (k n : String) : Option String :=
  lines.foldl (fun acc line =>
    match writeOf line k n with
    | some v => some v
    | none => acc) none

/-- Whether some line regex-matches with outlet key k. -/
def touches (lines : List String) (k : String) : Bool :=
  lines.any (fun line =>
    match parseLine (cleanLine line) with
    | some (_, k', _) => k' == k
    | none => false)

/-- Invariant of claim C5: every observed relay value is the literal
"0" or "1". -/
def relayOK (st : StateTable) : Prop :=
  ∀ k v, getMetric st k "relay" = some v → v = "0" ∨ v = "1"

/-- Fixture: a freshly constructed controller. -/
def devFresh : MpowerDevice := mkDevice "mPower" "host" "user" "pass" 20

/-- Fixture: a controller whose last executed refresh was at time 0. -/
def devThrottled : MpowerDevice := { devFresh with lastUpdate := some 0 }

/-- Fixture: a controller that already knows outlet 4 with relay value 0. -/
def devRelay4 : MpowerDevice :=
  { devFresh with states := setMetric emptyStates "4" "relay" "0" }

/-- Fixture: the raw status-dump response of the component's test suite
(command echo first, wrapped over two physical lines, then one line per
metric and outlet, each ending in a carriage return). -/
def sampleResponse : String :=
  "cd /proc/power;grep '' pf* relay* v_rms* active_pwr* i_rms* energy_su\r\r\nm*\r\npf1:0.0\r\npf2:0.91073511\r\npf3:0.0\r\npf4:0.0\r\npf5:0.0\r\npf6:0.0\r\nrelay1:1\r\nrelay2:1\r\nrelay3:1\r\nrelay4:0\r\nrelay5:1\r\nrelay6:1\r\nv_rms1:233.138035297\r\nv_rms2:233.23304367\r\nv_rms3:232.374885559\r\nv_rms4:233.049869537\r\nv_rms5:232.89024353\r\nv_rms6:233.143782615\r\nactive_pwr1:0.0\r\nactive_pwr2:27.129834473\r\nactive_pwr3:0.0\r\nactive_pwr4:0.0\r\nactive_pwr5:0.0\r\nactive_pwr6:0.0\r\ni_rms1:0.0\r\ni_rms2:0.127721786\r\ni_rms3:0.0\r\ni_rms4:0.0\r\ni_rms5:0.0\r\ni_rms6:0.0\r\nenergy_sum1:54.375\r\nenergy_sum2:124.6875\r\nenergy_sum3:0.0\r\nenergy_sum4:23.4375\r\nenergy_sum5:0.0\r\nenergy_sum6:0.0\r\n"

/-- Fixture: the controller after one successful refresh of the sample
dump. -/
def sampleDev : MpowerDevice :=
  (update devFresh 0 ConnectResult.ok sampleResponse).1

theorem writeOf_of_parse_none {line : String} (h : parseLine (cleanLine line) = none)
    (k n : String) : writeOf line k n = none := by
  unfold writeOf
  rw [h]

theorem writeOf_of_parse_some {line n₀ k₀ v₀ : String}
    (h : parseLine (cleanLine line) = some (n₀, k₀, v₀)) (k n : String) :
    writeOf line k n = if k₀ = k ∧ n₀ = n then some v₀ else none := by
  unfold writeOf
  rw [h]

theorem getMetric_setMetric (st : StateTable) (k n v k' n' : String) :
    getMetric (setMetric st k n v) k' n' =
      if k' = k ∧ n' = n then some v else getMetric st k' n' := by
  unfold getMetric setMetric
  by_cases hk : k' = k
  · subst hk
    by_cases hn : n' = n
    · subst hn
      simp
    · simp [hn]
  · simp [hk]

theorem setMetric_isSome (st : StateTable) (k n v k' : String) :
    (setMetric st k n v k').isSome = ((k' = k : Bool) || (st k').isSome) := by
  unfold setMetric
  by_cases hk : k' = k
  · simp [hk]
  · simp [hk]

theorem lastWriteVal_foldl_acc (lines : List String) (k n : String) (a : Option String) :
    lines.foldl (fun acc line =>
        match writeOf line k n with
        | some v => some v
        | none => acc) a =
      match lastWriteVal lines k n with
      | some v => some v
      | none => a := by
  induction lines generalizing a with
  | nil => simp [lastWriteVal]
  | cons l rest ih =>
    simp only [lastWriteVal, List.foldl_cons]
    cases hw : writeOf l k n with
    | some v =>
      simp only [hw]
      rw [ih (some v)]
      cases hrest : lastWriteVal rest k n <;> simp [hrest]
    | none =>
      simp only [hw]
      rw [ih a, ih none]
      cases hrest : lastWriteVal rest k n <;> simp [hrest]

theorem lastWriteVal_cons (l : String) (rest : List String) (k n : String) :
    lastWriteVal (l :: rest) k n =
      match lastWriteVal rest k n with
      | some v => some v
      | none => writeOf l k n := by
  unfold lastWriteVal
  rw [List.foldl_cons, lastWriteVal_foldl_acc]
  cases writeOf l k n <;> rfl

theorem touches_cons (l : String) (rest : List String) (k : String) :
    touches (l :: rest) k =
      ((match parseLine (cleanLine l) with
        | some (_, k', _) => k' == k
        | none => false) || touches rest k) := by
  unfold touches
  rw [List.any_cons]

theorem lastWriteVal_of_not_touches {lines : List String} {k : String}
    (h : touches lines k = false) (n : String) : lastWriteVal lines k n = none := by
  induction lines with
  | nil => rfl
  | cons l rest ih =>
    rw [touches_cons, Bool.or_eq_false_iff] at h
    rw [lastWriteVal_cons, ih h.2]
    cases hp : parseLine (cleanLine l) with
    | none => rw [writeOf_of_parse_none hp]
    | some t =>
      obtain ⟨n₀, k₀, v₀⟩ := t
      rw [writeOf_of_parse_some hp]
      have hk : ¬(k₀ = k) := by
        intro he
        rw [hp] at h
        simp [he] at h
      simp [hk]

theorem lastWriteVal_some_mem {lines : List String} {k n v : String}
    (h : lastWriteVal lines k n = some v) : ∃ l ∈ lines, writeOf l k n = some v := by
  induction lines with
  | nil => exact absurd h (by simp [lastWriteVal])
  | cons l rest ih =>
    rw [lastWriteVal_cons] at h
    cases hrest : lastWriteVal rest k n with
    | some w =>
      simp only [hrest] at h
      injection h with h'
      subst h'
      obtain ⟨l', hl', hw'⟩ := ih hrest
      exact ⟨l', List.mem_cons_of_mem _ hl', hw'⟩
    | none =>
      simp only [hrest] at h
      exact ⟨l, List.mem_cons_self _ _, h⟩

/-- Characterization of a parsing pass over the state table: the entry of
outlet k after the pass exists iff a line wrote to k or it existed before,
and each metric holds the value of the last line writing that cell,
falling back to the prior table. -/
theorem applyLines_apply (lines : List String) (st : StateTable) (k : String) :
    applyLines st lines k =
      if touches lines k || (st k).isSome then
        some (fun n =>
          match lastWriteVal lines k n with
          | some v => some v
          | none => getMetric st k n)
      else none := by
  induction lines generalizing st with
  | nil =>
    simp only [applyLines, List.foldl_nil, touches, List.any_nil, Bool.false_or, lastWriteVal,
      List.foldl_nil]
    cases hst : st k with
    | none => simp
    | some m =>
      simp only [Option.isSome_some, if_true]
      congr 1
      funext n
      rw [getMetric, hst]
  | cons l rest ih =>
    simp only [applyLines, List.foldl_cons] at *
    cases hp : parseLine (cleanLine l) with
    | none =>
      have hstep : applyLine st l = st := by
        unfold applyLine
        rw [hp]
      rw [hstep, ih st, touches_cons, hp]
      simp only [Bool.false_or]
      by_cases hc : (touches rest k || (st k).isSome) = true
      · rw [if_pos hc, if_pos hc]
        congr 1
        funext n
        rw [lastWriteVal_cons, writeOf_of_parse_none hp]
        cases lastWriteVal rest k n <;> rfl
      · rw [if_neg hc, if_neg hc]
    | some t =>
      obtain ⟨n₀, k₀, v₀⟩ := t
      have hstep : applyLine st l = setMetric st k₀ n₀ v₀ := by
        unfold applyLine
        rw [hp]
      rw [hstep, ih (setMetric st k₀ n₀ v₀), touches_cons, hp, setMetric_isSome]
      have hcond : (touches rest k || ((k = k₀ : Bool) || (st k).isSome)) =
          (((k₀ == k) || touches rest k) || (st k).isSome) := by
        by_cases hk : k = k₀
        · subst hk
          simp
        · have hbeq : (k₀ == k) = false := by
            simp
            exact fun he => hk he.symm
          rw [hbeq, Bool.false_or]
          have hdec : (k = k₀ : Bool) = false := by
            simp [hk]
          rw [hdec, Bool.false_or]
      rw [hcond]
      by_cases hc : ((k₀ == k) || touches rest k || (st k).isSome) = true
      · rw [if_pos hc, if_pos hc]
        congr 1
        funext n
        rw [lastWriteVal_cons, writeOf_of_parse_some hp, getMetric_setMetric]
        cases hrest : lastWriteVal rest k n with
        | some v => rfl
        | none =>
          by_cases hk : k₀ = k
          · by_cases hn : n₀ = n
            · simp [hk, hn]
            · have hn' : ¬(n = n₀) := fun he => hn he.symm
              simp [hk, hn, hn']
          · have hk' : ¬(k = k₀) := fun he => hk he.symm
            simp [hk, hk']
      · rw [if_neg hc, if_neg hc]

/-- Metric-level reading of the characterization. -/
theorem getMetric_applyLines (lines : List String) (st : StateTable) (k n : String) :
    getMetric (applyLines st lines) k n =
      match lastWriteVal lines k n with
      | some v => some v
      | none => getMetric st k n := by
  rw [getMetric, applyLines_apply]
  by_cases hc : (touches lines k || (st k).isSome) = true
  · rw [if_pos hc]
  · rw [if_neg hc]
    rw [Bool.or_eq_true, not_or, Bool.not_eq_true, Bool.not_eq_true] at hc
    rw [lastWriteVal_of_not_touches hc.1]
    rw [getMetric]
    cases hst : st k with
    | none => rfl
    | some m => rw [hst] at hc; exact absurd hc.2 (by simp)

theorem lastWriteVal_of_forall_none {ls : List String} {k n : String}
    (h : ∀ l ∈ ls, writeOf l k n = none) : lastWriteVal ls k n = none := by
  induction ls with
  | nil => rfl
  | cons l rest ih =>
    rw [lastWriteVal_cons, ih (fun l' hl' => h l' (List.mem_cons_of_mem _ hl')),
      h l (List.mem_cons_self _ _)]

/-- Behaviour of one unthrottled refresh with an available session, at the
level of a single state-table cell. -/
theorem update_getMetric (dev : MpowerDevice) (now : Nat) (attempt : ConnectResult)
    (response : String) (s : Session) (k n : String)
    (hthr : throttleBlocks dev.lastUpdate now = false)
    (hsess : connect dev.ssh attempt = some s) :
    getMetric (update dev now attempt response).1.states k n =
      match lastWriteVal (powerLines response) k n with
      | some v => some v
      | none => getMetric dev.states k n := by
  simp only [update, hthr, hsess, Bool.false_eq_true, if_false]
  exact getMetric_applyLines _ _ _ _

theorem update_commands (dev : MpowerDevice) (now : Nat) (attempt : ConnectResult)
    (response : String) (s : Session)
    (hthr : throttleBlocks dev.lastUpdate now = false)
    (hsess : connect dev.ssh attempt = some s) :
    (update dev now attempt response).2 = [Command.powerStatus] := by
  simp only [update, hthr, hsess, Bool.false_eq_true, if_false]

theorem update_no_session (dev : MpowerDevice) (now : Nat) (attempt : ConnectResult)
    (response : String)
    (hthr : throttleBlocks dev.lastUpdate now = false)
    (hsess : connect dev.ssh attempt = none) :
    update dev now attempt response =
      ({ dev with lastUpdate := some now, ssh := none }, []) := by
  simp only [update, hthr, hsess, Bool.false_eq_true, if_false]

theorem turn_on_of_some (dev : MpowerDevice) (attempt : ConnectResult) (key : String)
    (s : Session) (m : String → Option String)
    (hsess : connect dev.ssh attempt = some s) (hkey : dev.states key = some m) :
    turn_on dev attempt key =
      ({ dev with ssh := some s, states := setMetric dev.states key "relay" "1" },
       [Command.relay 1 key], Except.ok true) := by
  simp only [turn_on, switchState, hsess, hkey]

theorem turn_on_of_missing_key (dev : MpowerDevice) (attempt : ConnectResult) (key : String)
    (s : Session)
    (hsess : connect dev.ssh attempt = some s) (hkey : dev.states key = none) :
    turn_on dev attempt key =
      ({ dev with ssh := some s }, [Command.relay 1 key], Except.error ()) := by
  simp only [turn_on, switchState, hsess, hkey]

theorem turn_on_of_no_session (dev : MpowerDevice) (attempt : ConnectResult) (key : String)
    (hsess : connect dev.ssh attempt = none) :
    turn_on dev attempt key = ({ dev with ssh := none }, [], Except.ok false) := by
  simp only [turn_on, switchState, hsess]

theorem turn_off_of_some (dev : MpowerDevice) (attempt : ConnectResult) (key : String)
    (s : Session) (m : String → Option String)
    (hsess : connect dev.ssh attempt = some s) (hkey : dev.states key = some m) :
    turn_off dev attempt key =
      ({ dev with ssh := some s, states := setMetric dev.states key "relay" "0" },
       [Command.relay 0 key], Except.ok true) := by
  simp only [turn_off, switchState, hsess, hkey]

theorem turn_off_of_missing_key (dev : MpowerDevice) (attempt : ConnectResult) (key : String)
    (s : Session)
    (hsess : connect dev.ssh attempt = some s) (hkey : dev.states key = none) :
    turn_off dev attempt key =
      ({ dev with ssh := some s }, [Command.relay 0 key], Except.error ()) := by
  simp only [turn_off, switchState, hsess, hkey]

theorem turn_off_of_no_session (dev : MpowerDevice) (attempt : ConnectResult) (key : String)
    (hsess : connect dev.ssh attempt = none) :
    turn_off dev attempt key = ({ dev with ssh := none }, [], Except.ok false) := by
  simp only [turn_off, switchState, hsess]

theorem connect_fails (ssh : Option Session) (attempt : ConnectResult)
    (hdead : ∀ s, ssh = some s → s.alive = false) (hatt : attempt ≠ ConnectResult.ok) :
    connect ssh attempt = none := by
  have hlog : tryLogin attempt = none := by
    cases attempt with
    | ok => exact absurd rfl hatt
    | eof => rfl
    | pxsshError => rfl
  cases hss : ssh with
  | none => rw [connect, hlog]
  | some s =>
    rw [connect, hdead s hss, hlog]
    rfl

/-- Claim C8: the line-parsing step is idempotent — running it a second
time on the identical input, starting from the table produced by the
first parse, yields the same table. -/
theorem claim8_parse_idempotent (st : StateTable) (lines : List String) :
    applyLines (applyLines st lines) lines = applyLines st lines := by
  funext k
  have hT : (applyLines st lines k).isSome = (touches lines k || (st k).isSome) := by
    rw [applyLines_apply]
    by_cases hc : (touches lines k || (st k).isSome) = true
    · rw [if_pos hc, hc]
      rfl
    · rw [if_neg hc]
      simp only [Bool.not_eq_true] at hc
      rw [hc]
      rfl
  rw [applyLines_apply lines (applyLines st lines) k, hT, ← Bool.or_assoc, Bool.or_self,
    applyLines_apply lines st k]
  by_cases hc : (touches lines k || (st k).isSome) = true
  · rw [if_pos hc, if_pos hc]
    congr 1
    funext n
    cases hlwv : lastWriteVal lines k n with
    | some v => rfl
    | none =>
      show getMetric (applyLines st lines) k n = getMetric st k n
      rw [getMetric_applyLines, hlwv]
  · rw [if_neg hc, if_neg hc]

/-- Claim C1, as stated, is false: a line matching the pattern that is the
very first line of the raw response is not entered into the table — here
the matching first line relay1:1 of a two-line response leaves the table
empty. -/
theorem claim1_counterexample :
    parseLine (cleanLine "relay1:1") = some ("relay", "1", "1") ∧
    connect (mkDevice "mPower" "host" "user" "pass" 20).ssh ConnectResult.ok =
      some { alive := true } ∧
    getMetric (update (mkDevice "mPower" "host" "user" "pass" 20) 0 ConnectResult.ok
      "relay1:1\nx").1.states "1" "relay" = none := by
  refine ⟨by decide, rfl, rfl⟩

/-- Claim C1 (amended): refresh with an available session splits the
response into lines, drops the first and the last line, and for each
remaining line matching the pattern sets StateTable[key][name] = value
(a later line overwrites an earlier one for the same cell); every
remaining line not matching the pattern is ignored without error and
without changing the StateTable. -/
theorem claim1_update_parses (dev : MpowerDevice) (now : Nat) (attempt : ConnectResult)
    (response : String) (s : Session) (k n : String)
    (hthr : throttleBlocks dev.lastUpdate now = false)
    (hsess : connect dev.ssh attempt = some s) :
    getMetric (update dev now attempt response).1.states k n =
      (match lastWriteVal (powerLines response) k n with
       | some v => some v
       | none => getMetric dev.states k n) ∧
    (update dev now attempt response).2 = [Command.powerStatus] :=
  ⟨update_getMetric dev now attempt response s k n hthr hsess,
   update_commands dev now attempt response s hthr hsess⟩

/-- Witness for claim C1 at a concrete response whose interior line
relay2:1 is entered into the table. -/
theorem claim1_witness :
    getMetric (update (mkDevice "mPower" "host" "user" "pass" 20) 0 ConnectResult.ok
      "e\nrelay2:1\np").1.states "2" "relay" =
      (match lastWriteVal (powerLines "e\nrelay2:1\np") "2" "relay" with
       | some v => some v
       | none => getMetric (mkDevice "mPower" "host" "user" "pass" 20).states "2" "relay") ∧
    (update (mkDevice "mPower" "host" "user" "pass" 20) 0 ConnectResult.ok
      "e\nrelay2:1\np").2 = [Command.powerStatus] :=
  claim1_update_parses (mkDevice "mPower" "host" "user" "pass" 20) 0 ConnectResult.ok
    "e\nrelay2:1\np" { alive := true } "2" "relay" rfl rfl

/-- Claim C10: update drops the first and the last line of the raw
response before pattern matching, so the processed lines are exactly the
interior ones, and a cell no interior line writes keeps its prior value
even when the first or last line is a well-formed metric line for it. -/
theorem claim10_first_last_dropped (dev : MpowerDevice) (now : Nat)
    (attempt : ConnectResult) (response : String) (s : Session) (f g : String)
    (ls : List String) (k n : String)
    (hthr : throttleBlocks dev.lastUpdate now = false)
    (hsess : connect dev.ssh attempt = some s)
    (hsplit : splitLines response = f :: (ls ++ [g]))
    (hmid : ∀ l ∈ ls, writeOf l k n = none) :
    powerLines response = ls ∧
    getMetric (update dev now attempt response).1.states k n = getMetric dev.states k n := by
  have hpl : powerLines response = ls := by
    rw [powerLines, hsplit, List.drop_one, List.tail_cons, List.dropLast_concat]
  refine ⟨hpl, ?_⟩
  rw [update_getMetric dev now attempt response s k n hthr hsess, hpl,
    lastWriteVal_of_forall_none hmid]

/-- Witness for claim C10: the first and last lines are well-formed relay
lines for outlets 1 and 3, yet only the interior relay2 line lands. -/
theorem claim10_witness :
    powerLines "relay1:1\nrelay2:0\nrelay3:1" = ["relay2:0"] ∧
    getMetric (update (mkDevice "mPower" "host" "user" "pass" 20) 0 ConnectResult.ok
      "relay1:1\nrelay2:0\nrelay3:1").1.states "1" "relay" =
      getMetric (mkDevice "mPower" "host" "user" "pass" 20).states "1" "relay" :=
  claim10_first_last_dropped (mkDevice "mPower" "host" "user" "pass" 20) 0 ConnectResult.ok
    "relay1:1\nrelay2:0\nrelay3:1" { alive := true } "relay1:1" "relay3:1" ["relay2:0"]
    "1" "relay" rfl rfl (by decide) (by decide)

/-- Claim C2: with an available session, a relay write always sets the
outlet's relay entry to the requested literal regardless of its prior
value and returns success; with no session available it leaves the table
unchanged and returns failure. -/
theorem claim2_set_relay (dev : MpowerDevice) (attempt : ConnectResult) (key : String) :
    (∀ (s : Session) (r : String), connect dev.ssh attempt = some s →
      getMetric dev.states key "relay" = some r →
      (turn_on dev attempt key).2.2 = Except.ok true ∧
      getMetric (turn_on dev attempt key).1.states key "relay" = some "1" ∧
      (turn_off dev attempt key).2.2 = Except.ok true ∧
      getMetric (turn_off dev attempt key).1.states key "relay" = some "0") ∧
    (connect dev.ssh attempt = none →
      (turn_on dev attempt key).2.2 = Except.ok false ∧
      (turn_on dev attempt key).1.states = dev.states ∧
      (turn_off dev attempt key).2.2 = Except.ok false ∧
      (turn_off dev attempt key).1.states = dev.states) := by
  constructor
  · intro s r hsess hrel
    obtain ⟨m, hkey⟩ : ∃ m, dev.states key = some m := by
      rw [getMetric] at hrel
      cases hst : dev.states key with
      | none =>
        rw [hst] at hrel
        exact absurd hrel (by simp)
      | some m => exact ⟨m, rfl⟩
    rw [turn_on_of_some dev attempt key s m hsess hkey,
      turn_off_of_some dev attempt key s m hsess hkey]
    refine ⟨rfl, ?_, rfl, ?_⟩ <;> simp [getMetric_setMetric]
  · intro hsess
    rw [turn_on_of_no_session dev attempt key hsess,
      turn_off_of_no_session dev attempt key hsess]
    exact ⟨rfl, rfl, rfl, rfl⟩

/-- Witness for claim C2 on a controller knowing outlet 4 with prior
relay value 0 and a successful connection. -/
theorem claim2_witness :
    (turn_on devRelay4 ConnectResult.ok "4").2.2 = Except.ok true ∧
    getMetric (turn_on devRelay4 ConnectResult.ok "4").1.states "4" "relay" = some "1" ∧
    (turn_off devRelay4 ConnectResult.ok "4").2.2 = Except.ok true ∧
    getMetric (turn_off devRelay4 ConnectResult.ok "4").1.states "4" "relay" = some "0" :=
  (claim2_set_relay devRelay4 ConnectResult.ok "4").1 { alive := true } "0" rfl rfl

/-- Claim C9: for an outlet key missing from the state table, a relay
write with an available session sends the relay command and then fails
with a key-lookup error instead of returning success, and the table is
not changed (the write does not create the missing per-outlet entry). -/
theorem claim9_missing_key (dev : MpowerDevice) (attempt : ConnectResult) (key : String)
    (s : Session)
    (hsess : connect dev.ssh attempt = some s) (hkey : dev.states key = none) :
    (turn_on dev attempt key).2.1 = [Command.relay 1 key] ∧
    (turn_on dev attempt key).2.2 = Except.error () ∧
    (turn_on dev attempt key).1.states = dev.states ∧
    (turn_off dev attempt key).2.1 = [Command.relay 0 key] ∧
    (turn_off dev attempt key).2.2 = Except.error () ∧
    (turn_off dev attempt key).1.states = dev.states := by
  rw [turn_on_of_missing_key dev attempt key s hsess hkey,
    turn_off_of_missing_key dev attempt key s hsess hkey]
  exact ⟨rfl, rfl, rfl, rfl, rfl, rfl⟩

/-- Witness for claim C9 on a fresh controller that knows no outlets. -/
theorem claim9_witness :
    (turn_on devFresh ConnectResult.ok "1").2.1 = [Command.relay 1 "1"] ∧
    (turn_on devFresh ConnectResult.ok "1").2.2 = Except.error () ∧
    (turn_on devFresh ConnectResult.ok "1").1.states = devFresh.states ∧
    (turn_off devFresh ConnectResult.ok "1").2.1 = [Command.relay 0 "1"] ∧
    (turn_off devFresh ConnectResult.ok "1").2.2 = Except.error () ∧
    (turn_off devFresh ConnectResult.ok "1").1.states = devFresh.states :=
  claim9_missing_key devFresh ConnectResult.ok "1" { alive := true } rfl rfl

/-- Claim C4: when connection establishment fails (end-of-stream or any
other login error) the session is cleared and nothing raises: the failed
refresh leaves the table unchanged and sends nothing, and subsequent
relay writes under the same failure return failure without error and
without touching the table. -/
theorem claim4_connect_failure (dev : MpowerDevice) (now : Nat)
    (attempt attempt2 attempt3 : ConnectResult) (response key : String)
    (hthr : throttleBlocks dev.lastUpdate now = false)
    (hdead : ∀ s, dev.ssh = some s → s.alive = false)
    (h1 : attempt ≠ ConnectResult.ok) (h2 : attempt2 ≠ ConnectResult.ok)
    (h3 : attempt3 ≠ ConnectResult.ok) :
    (update dev now attempt response).1.ssh = none ∧
    (update dev now attempt response).1.states = dev.states ∧
    (update dev now attempt response).2 = [] ∧
    (turn_on (update dev now attempt response).1 attempt2 key).2.2 = Except.ok false ∧
    (turn_on (update dev now attempt response).1 attempt2 key).1.states = dev.states ∧
    (turn_off (update dev now attempt response).1 attempt3 key).2.2 = Except.ok false ∧
    (turn_off (update dev now attempt response).1 attempt3 key).1.states = dev.states := by
  have hc : connect dev.ssh attempt = none := connect_fails dev.ssh attempt hdead h1
  rw [update_no_session dev now attempt response hthr hc]
  have hc2 : connect ({ dev with lastUpdate := some now, ssh := none } : MpowerDevice).ssh
      attempt2 = none :=
    connect_fails _ _ (fun s h => Option.noConfusion h) h2
  have hc3 : connect ({ dev with lastUpdate := some now, ssh := none } : MpowerDevice).ssh
      attempt3 = none :=
    connect_fails _ _ (fun s h => Option.noConfusion h) h3
  rw [turn_on_of_no_session _ attempt2 key hc2, turn_off_of_no_session _ attempt3 key hc3]
  exact ⟨rfl, rfl, rfl, rfl, rfl, rfl, rfl⟩

/-- Witness for claim C4 on a fresh controller with an end-of-stream
login failure, then a pxssh error and another end-of-stream on the
subsequent writes. -/
theorem claim4_witness :
    (update devFresh 0 ConnectResult.eof "x").1.ssh = none ∧
    (update devFresh 0 ConnectResult.eof "x").1.states = devFresh.states ∧
    (update devFresh 0 ConnectResult.eof "x").2 = [] ∧
    (turn_on (update devFresh 0 ConnectResult.eof "x").1 ConnectResult.pxsshError "1").2.2 =
      Except.ok false ∧
    (turn_on (update devFresh 0 ConnectResult.eof "x").1 ConnectResult.pxsshError "1").1.states =
      devFresh.states ∧
    (turn_off (update devFresh 0 ConnectResult.eof "x").1 ConnectResult.eof "1").2.2 =
      Except.ok false ∧
    (turn_off (update devFresh 0 ConnectResult.eof "x").1 ConnectResult.eof "1").1.states =
      devFresh.states :=
  claim4_connect_failure devFresh 0 ConnectResult.eof ConnectResult.pxsshError
    ConnectResult.eof "x" "1" rfl (fun s h => Option.noConfusion h)
    (by decide) (by decide) (by decide)

theorem update_sends_at_most_one (dev : MpowerDevice) (now : Nat) (a : ConnectResult)
    (r : String) : (update dev now a r).2.length ≤ 1 := by
  unfold update
  split
  · simp
  · cases connect dev.ssh a <;> simp

theorem update_lastUpdate (dev : MpowerDevice) (now : Nat) (a : ConnectResult) (r : String)
    (hthr : throttleBlocks dev.lastUpdate now = false) :
    (update dev now a r).1.lastUpdate = some now := by
  simp only [update, hthr, Bool.false_eq_true, if_false]
  cases connect dev.ssh a <;> rfl

/-- Claim C3, as stated, is false: on a controller whose last executed
refresh was at time 0, calls at times 4 and 6 are separated by 2 seconds
(less than the 5-second interval), yet the second call executes — it
sends the status command and changes the table. -/
theorem claim3_counterexample :
    (6 : Nat) - 4 < MIN_TIME_BETWEEN_UPDATES ∧
    update devThrottled 4 ConnectResult.ok "e\nrelay1:1\np" = (devThrottled, []) ∧
    (update devThrottled 6 ConnectResult.ok "e\nrelay1:1\np").2 = [Command.powerStatus] ∧
    getMetric devThrottled.states "1" "relay" = none ∧
    getMetric (update devThrottled 6 ConnectResult.ok "e\nrelay1:1\np").1.states "1" "relay" =
      some "1" :=
  ⟨by decide, rfl, rfl, rfl, rfl⟩

/-- Claim C3 (amended): two refresh calls separated by less than the
minimum interval send at most one status command in total; and when the
first call actually executes (is not itself throttled by an earlier
refresh), the second call is a pure no-op returning the controller
unchanged, with no command sent and no error. -/
theorem claim3_throttle (dev : MpowerDevice) (now now' : Nat) (a a' : ConnectResult)
    (r r' : String) (hsep : now' - now < MIN_TIME_BETWEEN_UPDATES) :
    (update dev now a r).2.length + (update (update dev now a r).1 now' a' r').2.length ≤ 1 ∧
    (throttleBlocks dev.lastUpdate now = false →
      update (update dev now a r).1 now' a' r' = ((update dev now a r).1, [])) := by
  by_cases hthr : throttleBlocks dev.lastUpdate now = true
  · have hfirst : update dev now a r = (dev, []) := by
      simp [update, hthr]
    rw [hfirst]
    refine ⟨by simpa using update_sends_at_most_one dev now' a' r', ?_⟩
    intro hcontra
    rw [hthr] at hcontra
    exact absurd hcontra (by decide)
  · have hthrf : throttleBlocks dev.lastUpdate now = false := by
      simpa using hthr
    have hlu : (update dev now a r).1.lastUpdate = some now :=
      update_lastUpdate dev now a r hthrf
    set d1 := (update dev now a r).1 with hd1
    have hblock : throttleBlocks d1.lastUpdate now' = true := by
      rw [hlu]
      simpa [throttleBlocks, MIN_TIME_BETWEEN_UPDATES] using hsep
    have hsecond : update d1 now' a' r' = (d1, []) := by
      simp [update, hblock]
    refine ⟨?_, fun _ => hsecond⟩
    rw [hsecond]
    simpa using update_sends_at_most_one dev now a r

/-- Witness for claim C3 on a fresh controller with calls at times 0
and 3. -/
theorem claim3_witness :
    (update devFresh 0 ConnectResult.ok "x").2.length +
      (update (update devFresh 0 ConnectResult.ok "x").1 3 ConnectResult.ok "x").2.length ≤ 1 ∧
    (throttleBlocks devFresh.lastUpdate 0 = false →
      update (update devFresh 0 ConnectResult.ok "x").1 3 ConnectResult.ok "x" =
        ((update devFresh 0 ConnectResult.ok "x").1, [])) :=
  claim3_throttle devFresh 0 3 ConnectResult.ok ConnectResult.ok "x" "x" (by decide)

/-- Claim C5, as stated, is false: the value pattern accepts any numeric
text, so a dump line relay1:7 stores the relay value "7", which is
neither "0" nor "1". -/
theorem claim5_counterexample :
    getMetric (update devFresh 0 ConnectResult.ok "e\nrelay1:7\np").1.states "1" "relay" =
      some "7" ∧
    ¬ relayOK (update devFresh 0 ConnectResult.ok "e\nrelay1:7\np").1.states := by
  refine ⟨rfl, ?_⟩
  intro h
  rcases h "1" "7" rfl with h0 | h0 <;> exact absurd h0 (by decide)

/-- Claim C5 (amended): the relay-value invariant — every observed relay
entry is "0" or "1" — is preserved by relay writes unconditionally, and
by a refresh provided every processed response line that writes a relay
cell carries the value 0 or 1, as the device wire format guarantees. -/
theorem claim5_relay_invariant (dev : MpowerDevice) (now : Nat) (attempt : ConnectResult)
    (response key : String) (hok : relayOK dev.states) :
    ((∀ l ∈ powerLines response, ∀ k v, writeOf l k "relay" = some v → v = "0" ∨ v = "1") →
      relayOK (update dev now attempt response).1.states) ∧
    relayOK (turn_on dev attempt key).1.states ∧
    relayOK (turn_off dev attempt key).1.states := by
  refine ⟨?_, ?_, ?_⟩
  · intro hlines
    by_cases hthr : throttleBlocks dev.lastUpdate now = true
    · have hfirst : update dev now attempt response = (dev, []) := by
        simp [update, hthr]
      rw [hfirst]
      exact hok
    · have hthrf : throttleBlocks dev.lastUpdate now = false := by
        simpa using hthr
      cases hc : connect dev.ssh attempt with
      | none =>
        rw [update_no_session dev now attempt response hthrf hc]
        exact hok
      | some s =>
        intro k v h
        rw [update_getMetric dev now attempt response s k "relay" hthrf hc] at h
        cases hlwv : lastWriteVal (powerLines response) k "relay" with
        | some w =>
          simp only [hlwv] at h
          injection h with h'
          obtain ⟨l, hl, hw⟩ := lastWriteVal_some_mem hlwv
          rw [h'] at hw
          exact hlines l hl k v hw
        | none =>
          simp only [hlwv] at h
          exact hok k v h
  · cases hc : connect dev.ssh attempt with
    | none =>
      rw [turn_on_of_no_session dev attempt key hc]
      exact hok
    | some s =>
      cases hkey : dev.states key with
      | none =>
        rw [turn_on_of_missing_key dev attempt key s hc hkey]
        exact hok
      | some m =>
        rw [turn_on_of_some dev attempt key s m hc hkey]
        show relayOK (setMetric dev.states key "relay" "1")
        intro k v h
        rw [getMetric_setMetric] at h
        by_cases hcell : k = key ∧ ("relay" : String) = "relay"
        · rw [if_pos hcell] at h
          injection h with h'
          exact Or.inr h'.symm
        · rw [if_neg hcell] at h
          exact hok k v h
  · cases hc : connect dev.ssh attempt with
    | none =>
      rw [turn_off_of_no_session dev attempt key hc]
      exact hok
    | some s =>
      cases hkey : dev.states key with
      | none =>
        rw [turn_off_of_missing_key dev attempt key s hc hkey]
        exact hok
      | some m =>
        rw [turn_off_of_some dev attempt key s m hc hkey]
        show relayOK (setMetric dev.states key "relay" "0")
        intro k v h
        rw [getMetric_setMetric] at h
        by_cases hcell : k = key ∧ ("relay" : String) = "relay"
        · rw [if_pos hcell] at h
          injection h with h'
          exact Or.inl h'.symm
        · rw [if_neg hcell] at h
          exact hok k v h

/-- Witness for claim C5 on a fresh controller refreshed with a
conforming relay line and written on outlet 1. -/
theorem claim5_witness :
    relayOK (update devFresh 0 ConnectResult.ok "e\nrelay1:1\np").1.states ∧
    relayOK (turn_on devFresh ConnectResult.ok "1").1.states ∧
    relayOK (turn_off devFresh ConnectResult.ok "1").1.states := by
  have h := claim5_relay_invariant devFresh 0 ConnectResult.ok "e\nrelay1:1\np" "1"
    (fun k v hv => Option.noConfusion hv)
  refine ⟨h.1 ?_, h.2.1, h.2.2⟩
  intro l hl k v hw
  have hpl : powerLines "e\nrelay1:1\np" = ["relay1:1"] := rfl
  rw [hpl, List.mem_singleton] at hl
  subst hl
  have hwo : writeOf "relay1:1" k "relay" =
      if ("1" : String) = k ∧ ("relay" : String) = "relay" then some "1" else none := rfl
  rw [hwo] at hw
  by_cases hcell : ("1" : String) = k ∧ ("relay" : String) = "relay"
  · rw [if_pos hcell] at hw
    injection hw with hw'
    exact Or.inr hw'.symm
  · rw [if_neg hcell] at hw
    exact Option.noConfusion hw

/-- Claim C7, as stated, is false: with a label present the facade's name
is not the label but the composite of the controller name and the label. -/
theorem claim7_counterexample :
    outletName "mPower" "1" (some "kitchen") = "mPower_kitchen" ∧
    ¬ outletName "mPower" "1" (some "kitchen") = "kitchen" :=
  ⟨rfl, by decide⟩

/-- Claim C7 (amended): with a truthy label the facade's name is the
composite of controller name and label; with no label, or an empty one,
it is the composite of controller name and outlet key. -/
theorem claim7_name (c k : String) (label : Option String) :
    (∀ l, label = some l → ¬ l = "" → outletName c k label = c ++ "_" ++ l) ∧
    (label = none → outletName c k label = c ++ "_" ++ k) ∧
    (label = some "" → outletName c k label = c ++ "_" ++ k) := by
  refine ⟨?_, ?_, ?_⟩
  · intro l hl hne
    rw [hl]
    simp only [outletName]
    rw [if_neg hne]
  · intro hl
    rw [hl]
    rfl
  · intro hl
    rw [hl]
    simp [outletName]

/-- Witness for claim C7 at the test suite's label tv. -/
theorem claim7_witness :
    outletName "mPower" "1" (some "tv") = "mPower" ++ "_" ++ "tv" :=
  (claim7_name "mPower" "1" (some "tv")).1 "tv" rfl (by decide)

/-- Claim C6: current power is the raw active-power string parsed as a
number and divided by 1000 (the literal arithmetic of the source, despite
the milliwatt-hour naming); in particular outlet 2 of the sample dump —
relay2:1, active_pwr2:27.129834473, pf2:0.91073511 — reports on, current
power 0.027129834473, and power factor 0.91073511. -/
theorem claim6_power_scaling :
    (∀ (dev : MpowerDevice) (key s : String) (q : ℚ),
      getMetric dev.states key "active_pwr" = some s →
      parseDecimal s = some q →
      current_power_mwh dev key = Except.ok (q / 1000)) ∧
    is_on sampleDev "2" = Except.ok true ∧
    current_power_mwh sampleDev "2" = Except.ok ((27129834473 : ℚ) / 10 ^ 12) ∧
    (device_state_attributes sampleDev "2").map DeviceStateAttributes.power_factor =
      Except.ok ((91073511 : ℚ) / 10 ^ 8) := by
  refine ⟨?_, rfl, ?_, ?_⟩
  · intro dev key s q h1 h2
    simp only [current_power_mwh, floatMetric, h1, h2]
  · have h1 : getMetric sampleDev.states "2" "active_pwr" = some "27.129834473" := by
      decide
    have h2 : parseDecimal "27.129834473" =
        some (((27 : ℕ) : ℚ) + ((129834473 : ℕ) : ℚ) / (10 : ℚ) ^ (9 : ℕ)) := rfl
    simp only [current_power_mwh, floatMetric, h1, h2]
    congr 1
    norm_num
  · have hpf : getMetric sampleDev.states "2" "pf" = some "0.91073511" := by decide
    have hes : getMetric sampleDev.states "2" "energy_sum" = some "124.6875" := by decide
    have hvr : getMetric sampleDev.states "2" "v_rms" = some "233.23304367" := by decide
    have hap : getMetric sampleDev.states "2" "active_pwr" = some "27.129834473" := by
      decide
    have hir : getMetric sampleDev.states "2" "i_rms" = some "0.127721786" := by decide
    have ppf : parseDecimal "0.91073511" =
        some (((0 : ℕ) : ℚ) + ((91073511 : ℕ) : ℚ) / (10 : ℚ) ^ (8 : ℕ)) := rfl
    have pes : parseDecimal "124.6875" =
        some (((124 : ℕ) : ℚ) + ((6875 : ℕ) : ℚ) / (10 : ℚ) ^ (4 : ℕ)) := rfl
    have pvr : parseDecimal "233.23304367" =
        some (((233 : ℕ) : ℚ) + ((23304367 : ℕ) : ℚ) / (10 : ℚ) ^ (8 : ℕ)) := rfl
    have pap : parseDecimal "27.129834473" =
        some (((27 : ℕ) : ℚ) + ((129834473 : ℕ) : ℚ) / (10 : ℚ) ^ (9 : ℕ)) := rfl
    have pir : parseDecimal "0.127721786" =
        some (((0 : ℕ) : ℚ) + ((127721786 : ℕ) : ℚ) / (10 : ℚ) ^ (9 : ℕ)) := rfl
    simp only [device_state_attributes, floatMetric, hpf, hes, hvr, hap, hir,
      ppf, pes, pvr, pap, pir, Except.map]
    congr 1
    norm_num

/-- Witness for claim C6 at outlet 2 of the sample dump. -/
theorem claim6_witness :
    current_power_mwh sampleDev "2" =
      Except.ok ((((27 : ℕ) : ℚ) + ((129834473 : ℕ) : ℚ) / (10 : ℚ) ^ (9 : ℕ)) / 1000) :=
  claim6_power_scaling.1 sampleDev "2" "27.129834473"
    (((27 : ℕ) : ℚ) + ((129834473 : ℕ) : ℚ) / (10 : ℚ) ^ (9 : ℕ)) (by decide) rfl

end UbiquitiMpower
